import Mathlib

/-!
Shallow embedding of `homework.py`, a Telegram homework-status polling bot.
Python dictionaries are modelled as association lists (`List (String × Json)`,
first binding wins), JSON values as the inductive `Json`, and raised Python
exceptions as the `Except PyError` monad.  The network and the Telegram bot
are external inputs: one polling iteration receives the outcome of the HTTP
request (`HttpOutcome`) and the model records which messages were passed to
`send_message` and which log entries the loop itself emitted.
-/

/-- A Python/JSON value as it appears in the decoded API response. -/
inductive Json where
  | null : Json
  | int : Int → Json
  | str : String → Json
  | list : List Json → Json
  | obj : List (String × Json) → Json

/-- First-match lookup in an association list, modelling `d[k]` / `d.get(k)`
on a Python dict (whose keys are unique, so first-match is exact). -/
def jlookup : List (String × Json) → String → Option Json
  | [], _ => Option.none
  | (k, v) :: rest, key => if k = key then some v else jlookup rest key

/-- Models the Python membership test `key in d` on a dict. -/
def hasKey (kvs : List (String × Json)) (key : String) : Bool :=
  (jlookup kvs key).isSome

/-- Models `d.get(key, default)`; in `main` it is only applied to a response
that `check_response` has accepted, hence a mapping. -/
def dictGet (response : Json) (key : String) (default : Json) : Json :=
  match response with
  | Json.obj kvs => (jlookup kvs key).getD default
  | _ => default

mutual
/-- Python `repr` of a value, used by `str` on containers. -/
def pyRepr : Json → String
  | Json.null => "None"
  | Json.int n => toString n
  | Json.str s => "\x27" ++ s ++ "\x27"
  | Json.list xs => "[" ++ pyReprList xs ++ "]"
  | Json.obj kvs => "\x7b" ++ pyReprObj kvs ++ "\x7d"

/-- `repr` of a list body, comma-separated. -/
def pyReprList : List Json → String
  | [] => ""
  | [x] => pyRepr x
  | x :: y :: rest => pyRepr x ++ ", " ++ pyReprList (y :: rest)

/-- `repr` of a dict body, comma-separated `key: value` pairs. -/
def pyReprObj : List (String × Json) → String
  | [] => ""
  | [(k, v)] => "\x27" ++ k ++ "\x27: " ++ pyRepr v
  | (k, v) :: p :: rest =>
      "\x27" ++ k ++ "\x27: " ++ pyRepr v ++ ", " ++ pyReprObj (p :: rest)
end

/-- Python `str()` of a value, as interpolated by an f-string. -/
def pyStr : Json → String
  | Json.str s => s
  | v => pyRepr v

/-- The exception kinds raised by `homework.py`:  built-in `TypeError`,
`KeyError`, `ValueError`, and the project's `EndpointErrorException`
(imported from `exceptions.py`, a plain `Exception` subclass). -/
inductive PyError where
  | typeError : String → PyError
  | keyError : String → PyError
  | valueError : String → PyError
  | endpointError : String → PyError
deriving DecidableEq, Repr

/-- The Python exception class name: the "kind" of a raised error. -/
def errKind : PyError → String
  | PyError.typeError _ => "TypeError"
  | PyError.keyError _ => "KeyError"
  | PyError.valueError _ => "ValueError"
  | PyError.endpointError _ => "EndpointErrorException"

/-- Python `str(exception)` as used in f-strings: `KeyError` prints the
`repr` of its argument (hence quoted), the others print the bare message. -/
def pyErrStr : PyError → String
  | PyError.typeError m => m
  | PyError.keyError m => "\x27" ++ m ++ "\x27"
  | PyError.valueError m => m
  | PyError.endpointError m => m

/-- `True` iff the computation raised a `TypeError`. -/
def isTypeError {α : Type} : Except PyError α → Bool
  | Except.error (PyError.typeError _) => true
  | _ => false

/-- `True` iff the computation raised a `KeyError`. -/
def isKeyError {α : Type} : Except PyError α → Bool
  | Except.error (PyError.keyError _) => true
  | _ => false

/-- `True` iff the computation raised a `ValueError`. -/
def isValueError {α : Type} : Except PyError α → Bool
  | Except.error (PyError.valueError _) => true
  | _ => false

def RETRY_PERIOD : Nat := 600

def ENDPOINT : String := "https://practicum.yandex.ru/api/user_api/homework_statuses/"

def HOMEWORK_VERDICTS : List (String × String) :=
  [("approved", "Работа проверена: ревьюеру всё понравилось. Ура!"),
   ("reviewing", "Работа взята на проверку ревьюером."),
   ("rejected", "Работа проверена: у ревьюера есть замечания.")]

/-- First-match lookup in the verdicts table. -/
def verdictLookup : List (String × String) → String → Option String
  | [], _ => Option.none
  | (k, v) :: rest, key => if k = key then some v else verdictLookup rest key

/-- Membership of a (hashable) value among the keys of `HOMEWORK_VERDICTS`,
modelling `homework_status in HOMEWORK_VERDICTS`: only a string equal to one
of the three keys is a member. -/
def verdictOf : Json → Option String
  | Json.str s => verdictLookup HOMEWORK_VERDICTS s
  | _ => Option.none

inductive LogLevel where
  | debug | error | critical
deriving DecidableEq, Repr

structure LogEntry where
  level : LogLevel
  msg : String
deriving DecidableEq, Repr

/-- Python truthiness of an environment variable: `None` (unset) and the
empty string are falsy, every other string is truthy. -/
def truthy : Option String → Bool
  | Option.none => false
  | some s => ¬ (s = "")

/-- The `mandatory_variables` dict built in `check_tokens`, in source order. -/
def mandatory_variables (practicum telegram chat : Option String) :
    List (String × Option String) :=
  [("PRACTICUM_TOKEN", practicum),
   ("TELEGRAM_TOKEN", telegram),
   ("TELEGRAM_CHAT_ID", chat)]

/-- `[key for key, value in mandatory_variables.items() if not value]`. -/
def missing_variables (practicum telegram chat : Option String) : List String :=
  ((mandatory_variables practicum telegram chat).filter
    (fun kv => ¬ truthy kv.2)).map (fun kv => kv.1)

/-- `check_tokens`: returns whether all three credentials are set, together
with the log entries emitted (a single critical entry on failure). -/
def check_tokens (practicum telegram chat : Option String) :
    Bool × List LogEntry :=
  let vars := mandatory_variables practicum telegram chat
  if ¬ (vars.all (fun kv => truthy kv.2)) then
    let missing := missing_variables practicum telegram chat
    let msg1 :=
      if missing.length = 1 then
        "Отсутствует обязательная переменная окружения: "
      else
        "Отсутствуют обязательные переменные окружения:"
    let msg := msg1 ++ String.intercalate ", " missing ++
      "\nПрограмма принудительно остановлена."
    (false, [⟨LogLevel.critical, msg⟩])
  else
    (true, [])

/-- `send_message`: the outcome of the underlying `bot.send_message` call is
an input (`Except.error e` models the bot API raising with text `e`).  The
result is always `Except.ok` — the `try/except Exception` swallows every
delivery failure — carrying the log entries of the single attempt. -/
def send_message (outcome : Except String Unit) (message : String) :
    Except PyError (List LogEntry) :=
  match outcome with
  | Except.ok _ =>
      Except.ok [⟨LogLevel.debug, "Бот отправил сообщение: " ++ message⟩]
  | Except.error e =>
      Except.ok [⟨LogLevel.error,
        "Ошибка при отправке сообщения в Telegram: " ++ e⟩]

/-- The observable outcome of `requests.get` + `response.json()` for one
poll.  `response status body` is a completed HTTP response whose body decodes
to `body`; `requestError s` is any `requests.RequestException` raised during
the request or the JSON decode (DNS failure, timeout, connection refused,
invalid JSON), with `str(e) = s`.  The `except requests.exceptions.HTTPError`
clause in the source is unreachable (nothing calls `raise_for_status`), so it
has no constructor here. -/
inductive HttpOutcome where
  | response : Nat → Json → HttpOutcome
  | requestError : String → HttpOutcome

/-- `get_api_answer`: a non-200 status raises `EndpointErrorException` with
the endpoint and the status code in the message; a transport failure is
re-raised as `EndpointErrorException` with an `Ошибка запроса` message. -/
def get_api_answer (_timestamp : Json) (outcome : HttpOutcome) :
    Except PyError Json :=
  match outcome with
  | HttpOutcome.response status body =>
      if status ≠ 200 then
        Except.error (PyError.endpointError
          ("Эндпоинт " ++ ENDPOINT ++ " недоступен." ++
           "Код ответа API: " ++ toString status))
      else
        Except.ok body
  | HttpOutcome.requestError e =>
      Except.error (PyError.endpointError ("Ошибка запроса: " ++ e))

/-- `check_response`: rejects a non-dict, a dict without `homeworks`, a dict
without `current_date`, and a non-list `homeworks` value, in that order;
otherwise returns `response['homeworks']` unchanged. -/
def check_response (response : Json) : Except PyError (List Json) :=
  match response with
  | Json.obj kvs =>
      if ¬ hasKey kvs "homeworks" then
        Except.error (PyError.keyError "Отсутствует ключ \"homeworks\" в ответе API.")
      else if ¬ hasKey kvs "current_date" then
        Except.error (PyError.keyError "Отсутствует ключ \"current_date\" в ответе API.")
      else
        match (jlookup kvs "homeworks").getD Json.null with
        | Json.list hs => Except.ok hs
        | _ => Except.error (PyError.typeError "Ключ \"homeworks\" должен быть списком.")
  | _ => Except.error (PyError.typeError "Результат запроса не является словарем.")

/-- `parse_status`: requires the `homework_name` and `status` keys, then the
status value must be one of the three `HOMEWORK_VERDICTS` keys.  A list or
dict status value makes the Python membership test raise `TypeError`
(unhashable); any other non-key value raises the `ValueError`.  Only ever
called on elements of the `homeworks` list; a non-dict element is rejected
like Python rejects a non-container in the `in` test. -/
def parse_status (homework : Json) : Except PyError String :=
  match homework with
  | Json.obj kvs =>
      if ¬ hasKey kvs "homework_name" then
        Except.error (PyError.keyError "Отсутствует ключ \"homework_name\" в ответе API.")
      else if ¬ hasKey kvs "status" then
        Except.error (PyError.keyError "Отсутствует ключ \"status\" в ответе API.")
      else
        let homework_name := (jlookup kvs "homework_name").getD Json.null
        let homework_status := (jlookup kvs "status").getD Json.null
        match homework_status with
        | Json.list _ => Except.error (PyError.typeError "unhashable type: \x27list\x27")
        | Json.obj _ => Except.error (PyError.typeError "unhashable type: \x27dict\x27")
        | hs =>
            match verdictOf hs with
            | some verdict =>
                Except.ok ("Изменился статус проверки работы \"" ++
                  pyStr homework_name ++ "\". " ++ verdict)
            | Option.none =>
                Except.error (PyError.valueError
                  ("Неожиданный статус домашней работы: " ++ pyStr hs))
  | _ => Except.error (PyError.typeError "argument is not a container")

/-- The body of `for homework in homeworks: message = parse_status(homework);
send_message(bot, message)`: the messages handed to `send_message` before the
first parse failure, and that failure if one occurred (the loop stops there
and the exception propagates). -/
def notify_all : List Json → List String × Option PyError
  | [] => ([], Option.none)
  | h :: t =>
      match parse_status h with
      | Except.ok m =>
          let r := notify_all t
          (m :: r.1, r.2)
      | Except.error e => ([], some e)

/-- The error-report string built in the `except` clause of `main`:
`f'Сбой в работе программы: {error}'`. -/
def errReport (e : PyError) : String :=
  "Сбой в работе программы: " ++ pyErrStr e

/-- The observable effects of one iteration of the `while True` loop:
the messages passed to `send_message` in order, the log entries `main`
itself emits, the cursor after the iteration, the exception caught by the
`except Exception` clause (if any), and the sleep duration. -/
structure IterResult where
  sent : List String
  logs : List LogEntry
  timestamp : Json
  caught : Option PyError
  slept : Nat

/-- One iteration of the polling loop in `main`, lines 152–170: fetch,
validate, notify per record (or log the no-news debug note), advance the
cursor with `response.get('current_date', timestamp)`; any exception is
caught, reported through `send_message`, logged, and the cursor keeps its
previous value; the fixed sleep runs unconditionally. -/
def main_iter (timestamp : Json) (outcome : HttpOutcome) : IterResult :=
  match get_api_answer timestamp outcome with
  | Except.error e =>
      ⟨[errReport e], [⟨LogLevel.error, errReport e⟩], timestamp, some e,
       RETRY_PERIOD⟩
  | Except.ok response =>
      match check_response response with
      | Except.error e =>
          ⟨[errReport e], [⟨LogLevel.error, errReport e⟩], timestamp, some e,
           RETRY_PERIOD⟩
      | Except.ok homeworks =>
          if ¬ homeworks.isEmpty then
            match notify_all homeworks with
            | (msgs, some e) =>
                ⟨msgs ++ [errReport e], [⟨LogLevel.error, errReport e⟩],
                 timestamp, some e, RETRY_PERIOD⟩
            | (msgs, Option.none) =>
                ⟨msgs, [], dictGet response "current_date" timestamp,
                 Option.none, RETRY_PERIOD⟩
          else
            ⟨[], [⟨LogLevel.debug, "Отсутствуют новые статусы."⟩],
             dictGet response "current_date" timestamp, Option.none,
             RETRY_PERIOD⟩

/-- The polling loop run against a finite schedule of network outcomes, one
per iteration; the cursor produced by an iteration feeds the next. -/
def main_loop (timestamp : Json) : List HttpOutcome → List IterResult
  | [] => []
  | f :: fs =>
      let r := main_iter timestamp f
      r :: main_loop r.timestamp fs

/-- The source's `main` (renamed: `main` is reserved in Lean): the preflight
check runs once; on failure it returns before constructing the bot or
entering the loop (`Option.none`), otherwise the loop runs with the
wall-clock start time `t0` as the initial cursor. -/
def main_program (practicum telegram chat : Option String) (t0 : Int)
    (outcomes : List HttpOutcome) : Option (List IterResult) :=
  if (check_tokens practicum telegram chat).1 then
    some (main_loop (Json.int t0) outcomes)
  else
    Option.none

/-! Concrete values used to exercise the theorems: the record and response of
end-to-end scenario 1 of the specification. -/

def rec1 : Json :=
  Json.obj [("homework_name", Json.str "proj1"), ("status", Json.str "approved")]

def resp1 : Json :=
  Json.obj [("homeworks", Json.list [rec1]), ("current_date", Json.int 1700000200)]

/-! Helper lemmas shared by the claim theorems. -/

/-- A successful `mapM parse_status` run is exactly a `notify_all` run with
no caught parse failure, and produces one message per record. -/
theorem notify_all_of_mapM :
    ∀ (hs : List Json) (msgs : List String),
      hs.mapM parse_status = Except.ok msgs →
      notify_all hs = (msgs, Option.none) ∧ msgs.length = hs.length := by
  intro hs
  induction hs with
  | nil =>
      intro msgs h
      simp only [List.mapM_nil] at h
      cases h
      simp [notify_all]
  | cons a t ih =>
      intro msgs h
      rw [List.mapM_cons] at h
      cases hp : parse_status a with
      | error e => rw [hp] at h; cases h
      | ok m =>
          rw [hp] at h
          cases ht : t.mapM parse_status with
          | error e =>
              rw [ht] at h
              cases h
          | ok ms =>
              rw [ht] at h
              simp only [bind, Except.bind, pure, Except.pure,
                Except.ok.injEq] at h
              obtain ⟨hm, hl⟩ := ih ms ht
              subst h
              simp [notify_all, hp, hm, hl]

/-- Exhaustive shape analysis of one polling iteration: either an exception
was caught (the sent messages end with the error report, the loop logged it,
the cursor is unchanged), or everything succeeded (the fetch returned a 200
response that validated, every record parsed, and the cursor advanced via
`response.get`). -/
theorem main_iter_cases (ts : Json) (f : HttpOutcome) :
    (∃ msgs e, main_iter ts f =
       ⟨msgs ++ [errReport e], [⟨LogLevel.error, errReport e⟩], ts, some e,
        RETRY_PERIOD⟩)
    ∨ (∃ body hs msgs,
        f = HttpOutcome.response 200 body
        ∧ check_response body = Except.ok hs
        ∧ notify_all hs = (msgs, Option.none)
        ∧ main_iter ts f =
          ⟨msgs,
           if hs.isEmpty then [⟨LogLevel.debug, "Отсутствуют новые статусы."⟩]
           else [],
           dictGet body "current_date" ts, Option.none, RETRY_PERIOD⟩) := by
  cases f with
  | requestError s =>
      left
      exact ⟨[], PyError.endpointError ("Ошибка запроса: " ++ s), rfl⟩
  | response status body =>
      by_cases h200 : status = 200
      · subst h200
        cases hr : check_response body with
        | error e =>
            left
            refine ⟨[], e, ?_⟩
            simp [main_iter, get_api_answer, hr]
        | ok hs =>
            by_cases hemp : hs.isEmpty
            · right
              refine ⟨body, hs, [], rfl, hr, ?_, ?_⟩
              · rw [List.isEmpty_iff] at hemp
                subst hemp
                rfl
              · simp [main_iter, get_api_answer, hr, hemp]
            · cases hn : notify_all hs with
              | mk msgs caught =>
                  cases caught with
                  | none =>
                      right
                      refine ⟨body, hs, msgs, rfl, hr, hn, ?_⟩
                      simp [main_iter, get_api_answer, hr, hemp, hn]
                  | some e =>
                      left
                      refine ⟨msgs, e, ?_⟩
                      simp [main_iter, get_api_answer, hr, hemp, hn]
      · left
        refine ⟨[], PyError.endpointError
          ("Эндпоинт " ++ ENDPOINT ++ " недоступен." ++
           "Код ответа API: " ++ toString status), ?_⟩
        simp [main_iter, get_api_answer, h200]

/-- C3: for a record holding string values under `homework_name` and
`status`, `parse_status` returns exactly the fixed template
`Изменился статус проверки работы "name". verdict-text` for each of the three
recognized statuses, with the verdict drawn from `HOMEWORK_VERDICTS`, and
raises `ValueError` for every other status string. -/
theorem parse_status_template (kvs : List (String × Json)) (name st : String)
    (hn : jlookup kvs "homework_name" = some (Json.str name))
    (hs : jlookup kvs "status" = some (Json.str st)) :
    (st = "approved" →
      parse_status (Json.obj kvs) = Except.ok
        ("Изменился статус проверки работы \"" ++ name ++
         "\". Работа проверена: ревьюеру всё понравилось. Ура!"))
    ∧ (st = "reviewing" →
        parse_status (Json.obj kvs) = Except.ok
          ("Изменился статус проверки работы \"" ++ name ++
           "\". Работа взята на проверку ревьюером."))
    ∧ (st = "rejected" →
        parse_status (Json.obj kvs) = Except.ok
          ("Изменился статус проверки работы \"" ++ name ++
           "\". Работа проверена: у ревьюера есть замечания."))
    ∧ (st ≠ "approved" → st ≠ "reviewing" → st ≠ "rejected" →
        parse_status (Json.obj kvs) = Except.error (PyError.valueError
          ("Неожиданный статус домашней работы: " ++ st))) := by
  refine ⟨?_, ?_, ?_, ?_⟩
  · intro h
    subst h
    simp [parse_status, hasKey, hn, hs, pyStr, verdictOf, verdictLookup,
      HOMEWORK_VERDICTS, String.append_assoc]
  · intro h
    subst h
    simp [parse_status, hasKey, hn, hs, pyStr, verdictOf, verdictLookup,
      HOMEWORK_VERDICTS, String.append_assoc]
  · intro h
    subst h
    simp [parse_status, hasKey, hn, hs, pyStr, verdictOf, verdictLookup,
      HOMEWORK_VERDICTS, String.append_assoc]
  · intro h1 h2 h3
    simp [parse_status, hasKey, hn, hs, pyStr, verdictOf, verdictLookup,
      HOMEWORK_VERDICTS, Ne.symm h1, Ne.symm h2, Ne.symm h3]

/-- Exercises `parse_status_template` on scenario 1's record and on an
unrecognized status. -/
theorem parse_status_template_witness :
    parse_status rec1 = Except.ok
      "Изменился статус проверки работы \"proj1\". Работа проверена: ревьюеру всё понравилось. Ура!"
    ∧ parse_status
        (Json.obj [("homework_name", Json.str "proj1"),
                   ("status", Json.str "unknown")]) =
      Except.error (PyError.valueError
        "Неожиданный статус домашней работы: unknown") := by
  constructor
  · exact (parse_status_template
      [("homework_name", Json.str "proj1"), ("status", Json.str "approved")]
      "proj1" "approved" rfl rfl).1 rfl
  · exact (parse_status_template
      [("homework_name", Json.str "proj1"), ("status", Json.str "unknown")]
      "proj1" "unknown" rfl rfl).2.2.2 (by decide) (by decide) (by decide)

/-- C8: `parse_status` raises `KeyError` whenever `homework_name` is absent
(whatever else the record holds), and raises a `KeyError` whenever `status`
is absent — with the `status` message when `homework_name` is present. -/
theorem parse_status_missing_keys (kvs : List (String × Json)) :
    (jlookup kvs "homework_name" = Option.none →
      parse_status (Json.obj kvs) = Except.error
        (PyError.keyError "Отсутствует ключ \"homework_name\" в ответе API."))
    ∧ (jlookup kvs "status" = Option.none →
        isKeyError (parse_status (Json.obj kvs)) = true
        ∧ (∀ v, jlookup kvs "homework_name" = some v →
            parse_status (Json.obj kvs) = Except.error
              (PyError.keyError "Отсутствует ключ \"status\" в ответе API."))) := by
  constructor
  · intro h
    simp [parse_status, hasKey, h]
  · intro h
    constructor
    · cases hn : jlookup kvs "homework_name" with
      | none => simp [parse_status, hasKey, h, hn, isKeyError]
      | some v => simp [parse_status, hasKey, h, hn, isKeyError]
    · intro v hv
      simp [parse_status, hasKey, h, hv]

/-- Exercises `parse_status_missing_keys` with each key absent in turn. -/
theorem parse_status_missing_keys_witness :
    parse_status (Json.obj [("status", Json.str "approved")]) = Except.error
      (PyError.keyError "Отсутствует ключ \"homework_name\" в ответе API.")
    ∧ parse_status (Json.obj [("homework_name", Json.str "x")]) = Except.error
        (PyError.keyError "Отсутствует ключ \"status\" в ответе API.") :=
  ⟨(parse_status_missing_keys [("status", Json.str "approved")]).1 rfl,
   ((parse_status_missing_keys [("homework_name", Json.str "x")]).2 rfl).2
     (Json.str "x") rfl⟩

/-- C4 counterexample: on a mapping whose `homeworks` value is not a list
and which lacks `current_date`, `check_response` raises the `current_date`
`KeyError`, not the claimed `TypeError`: the `current_date` presence check
runs before the `homeworks`-is-a-list check. -/
theorem check_response_list_check_after_current_date :
    check_response (Json.obj [("homeworks", Json.int 5)]) = Except.error
      (PyError.keyError "Отсутствует ключ \"current_date\" в ответе API.")
    ∧ isTypeError (check_response (Json.obj [("homeworks", Json.int 5)]))
      = false :=
  ⟨rfl, rfl⟩

/-- C4 amended: `check_response` raises `TypeError` on a non-mapping,
`KeyError` on a mapping without `homeworks`, `KeyError` on a mapping with
`homeworks` but without `current_date` (this check precedes the list check),
`TypeError` when both keys are present but `homeworks` is not a list, and
returns the `homeworks` list unchanged otherwise. -/
theorem check_response_cases (r : Json) :
    ((∀ kvs, r ≠ Json.obj kvs) →
      check_response r = Except.error
        (PyError.typeError "Результат запроса не является словарем."))
    ∧ (∀ kvs, r = Json.obj kvs → jlookup kvs "homeworks" = Option.none →
        check_response r = Except.error
          (PyError.keyError "Отсутствует ключ \"homeworks\" в ответе API."))
    ∧ (∀ kvs v, r = Json.obj kvs → jlookup kvs "homeworks" = some v →
        jlookup kvs "current_date" = Option.none →
        check_response r = Except.error
          (PyError.keyError "Отсутствует ключ \"current_date\" в ответе API."))
    ∧ (∀ kvs v w, r = Json.obj kvs → jlookup kvs "homeworks" = some v →
        jlookup kvs "current_date" = some w → (∀ l, v ≠ Json.list l) →
        check_response r = Except.error
          (PyError.typeError "Ключ \"homeworks\" должен быть списком."))
    ∧ (∀ kvs l w, r = Json.obj kvs →
        jlookup kvs "homeworks" = some (Json.list l) →
        jlookup kvs "current_date" = some w →
        check_response r = Except.ok l) := by
  refine ⟨?_, ?_, ?_, ?_, ?_⟩
  · intro h
    cases r with
    | obj kvs => exact absurd rfl (h kvs)
    | null => rfl
    | int n => rfl
    | str s => rfl
    | list l => rfl
  · intro kvs hr h
    subst hr
    simp [check_response, hasKey, h]
  · intro kvs v hr hh hc
    subst hr
    simp [check_response, hasKey, hh, hc]
  · intro kvs v w hr hh hc hv
    subst hr
    cases v with
    | list l => exact absurd rfl (hv l)
    | null => simp [check_response, hasKey, hh, hc]
    | int n => simp [check_response, hasKey, hh, hc]
    | str s => simp [check_response, hasKey, hh, hc]
    | obj o => simp [check_response, hasKey, hh, hc]
  · intro kvs l w hr hh hc
    subst hr
    simp [check_response, hasKey, hh, hc]

/-- Exercises every branch of `check_response_cases` on concrete inputs. -/
theorem check_response_cases_witness :
    check_response (Json.int 3) = Except.error
      (PyError.typeError "Результат запроса не является словарем.")
    ∧ check_response (Json.obj []) = Except.error
        (PyError.keyError "Отсутствует ключ \"homeworks\" в ответе API.")
    ∧ check_response (Json.obj [("homeworks", Json.list []),
        ("current_date", Json.int 1), ("homeworks", Json.int 9)]) =
        Except.ok []
    ∧ check_response (Json.obj [("homeworks", Json.str "no"),
        ("current_date", Json.int 1)]) = Except.error
        (PyError.typeError "Ключ \"homeworks\" должен быть списком.")
    ∧ check_response resp1 = Except.ok [rec1] := by
  refine ⟨?_, ?_, ?_, ?_, ?_⟩
  · exact (check_response_cases (Json.int 3)).1 (fun kvs h => by cases h)
  · exact (check_response_cases (Json.obj [])).2.1 [] rfl rfl
  · exact (check_response_cases (Json.obj [("homeworks", Json.list []),
      ("current_date", Json.int 1), ("homeworks", Json.int 9)])).2.2.2.2
      _ [] (Json.int 1) rfl rfl rfl
  · exact (check_response_cases (Json.obj [("homeworks", Json.str "no"),
      ("current_date", Json.int 1)])).2.2.2.1
      _ (Json.str "no") (Json.int 1) rfl rfl rfl (fun l h => by cases h)
  · exact (check_response_cases resp1).2.2.2.2 _ [rec1] (Json.int 1700000200)
      rfl rfl rfl

/-- C9: `send_message` never propagates a delivery failure: whatever the
bot API call does, the function returns normally with the log entries of
its single attempt — a debug entry containing the message text on success,
an error entry on failure. -/
theorem send_message_swallows (o : Except String Unit) (m : String) :
    (∃ logs, send_message o m = Except.ok logs ∧ logs.length = 1)
    ∧ (o = Except.ok () → send_message o m = Except.ok
        [⟨LogLevel.debug, "Бот отправил сообщение: " ++ m⟩])
    ∧ (∀ e, o = Except.error e → send_message o m = Except.ok
        [⟨LogLevel.error, "Ошибка при отправке сообщения в Telegram: " ++ e⟩]) := by
  refine ⟨?_, ?_, ?_⟩
  · cases o with
    | ok u => exact ⟨_, rfl, rfl⟩
    | error e => exact ⟨_, rfl, rfl⟩
  · intro h
    subst h
    rfl
  · intro e h
    subst h
    rfl

/-- Exercises `send_message_swallows` on a failed and a successful
delivery. -/
theorem send_message_swallows_witness :
    send_message (Except.error "boom") "hi" = Except.ok
      [⟨LogLevel.error, "Ошибка при отправке сообщения в Telegram: boom"⟩]
    ∧ send_message (Except.ok ()) "hi" = Except.ok
      [⟨LogLevel.debug, "Бот отправил сообщение: hi"⟩] :=
  ⟨(send_message_swallows (Except.error "boom") "hi").2.2 "boom" rfl,
   (send_message_swallows (Except.ok ()) "hi").2.1 rfl⟩

/-- C5: `missing_variables` lists exactly the absent/empty credentials (in
the fixed dict order); when any credential is missing, `check_tokens` fails
with a single critical log entry enumerating them and `main` returns without
entering the loop; when all three are set, preflight succeeds and the loop
runs. -/
theorem check_tokens_preflight (p t c : Option String) (t0 : Int)
    (fs : List HttpOutcome) :
    (("PRACTICUM_TOKEN" ∈ missing_variables p t c ↔ truthy p = false)
     ∧ ("TELEGRAM_TOKEN" ∈ missing_variables p t c ↔ truthy t = false)
     ∧ ("TELEGRAM_CHAT_ID" ∈ missing_variables p t c ↔ truthy c = false))
    ∧ (missing_variables p t c ≠ [] →
        (check_tokens p t c).1 = false
        ∧ (check_tokens p t c).2 =
            [⟨LogLevel.critical,
              (if (missing_variables p t c).length = 1 then
                 "Отсутствует обязательная переменная окружения: "
               else "Отсутствуют обязательные переменные окружения:")
              ++ String.intercalate ", " (missing_variables p t c)
              ++ "\nПрограмма принудительно остановлена."⟩]
        ∧ main_program p t c t0 fs = Option.none)
    ∧ (missing_variables p t c = [] →
        (check_tokens p t c).1 = true ∧ (check_tokens p t c).2 = []
        ∧ main_program p t c t0 fs = some (main_loop (Json.int t0) fs)) := by
  cases hp : truthy p <;> cases ht : truthy t <;> cases hc : truthy c <;>
    simp [missing_variables, mandatory_variables, check_tokens, main_program,
      hp, ht, hc]

/-- Exercises `check_tokens_preflight`: with `PRACTICUM_TOKEN` unset and
`TELEGRAM_CHAT_ID` empty the loop never starts and the critical entry names
exactly those two; with all three set the loop runs. -/
theorem check_tokens_preflight_witness :
    (check_tokens Option.none (some "bot") (some "")).1 = false
    ∧ (check_tokens Option.none (some "bot") (some "")).2 =
        [⟨LogLevel.critical,
          "Отсутствуют обязательные переменные окружения:PRACTICUM_TOKEN, TELEGRAM_CHAT_ID\nПрограмма принудительно остановлена."⟩]
    ∧ main_program Option.none (some "bot") (some "") 0 [] = Option.none
    ∧ main_program (some "a") (some "b") (some "c") 0 [] = some [] := by
  have h1 := (check_tokens_preflight Option.none (some "bot") (some "") 0
    []).2.1 (by decide)
  have h2 := (check_tokens_preflight (some "a") (some "b") (some "c") 0
    []).2.2 (by decide)
  exact ⟨h1.1, by rw [h1.2.1]; rfl, h1.2.2, h2.2.2⟩

/-- Appending to a non-empty string literal keeps its first character. -/
theorem strHead_append (lit s : String) (c : Char)
    (h : lit.data.head? = some c) : (lit ++ s).data.head? = some c := by
  cases s with
  | mk sdata =>
      cases lit with
      | mk ldata =>
          cases ldata with
          | nil => simp at h
          | cons a l =>
              simp only [List.head?, Option.some.injEq] at h
              subst h
              rfl

/-- C1: every exception raised by fetch, validate or parse is caught by the
loop body: the last message handed to `send_message` is the one diagnostic
string `Сбой в работе программы: <description>`, the loop logs it at error
severity, the fixed sleep still runs, and the loop goes on to process every
remaining scheduled iteration — no polling-cycle error terminates it. -/
theorem main_loop_catches_every_error (ts : Json) (f : HttpOutcome) :
    (∀ e, (main_iter ts f).caught = some e →
       (main_iter ts f).sent.getLast? = some (errReport e)
       ∧ (⟨LogLevel.error, errReport e⟩ : LogEntry) ∈ (main_iter ts f).logs)
    ∧ (main_iter ts f).slept = RETRY_PERIOD
    ∧ (∀ (t0 : Json) (fs : List HttpOutcome),
        (main_loop t0 fs).length = fs.length)
    ∧ (∀ (t0 : Json) (g : HttpOutcome) (gs : List HttpOutcome),
        main_loop t0 (g :: gs) =
          main_iter t0 g :: main_loop (main_iter t0 g).timestamp gs) := by
  refine ⟨?_, ?_, ?_, fun t0 g gs => rfl⟩
  · intro e he
    rcases main_iter_cases ts f with ⟨msgs, e', hsh⟩ |
      ⟨body, hs, msgs, hf, hcr, hn, hsh⟩
    · rw [hsh] at he ⊢
      have he' : e' = e := by simpa using he
      subst he'
      constructor
      · simp [List.getLast?_concat]
      · simp
    · rw [hsh] at he
      simp at he
  · rcases main_iter_cases ts f with ⟨msgs, e', hsh⟩ |
      ⟨body, hs, msgs, hf, hcr, hn, hsh⟩ <;> rw [hsh]
  · intro t0 fs
    induction fs generalizing t0 with
    | nil => rfl
    | cons g gs ih => simp [main_loop, ih]

/-- Exercises `main_loop_catches_every_error` on a transport failure: the
error notification is attempted, logged, and two further scheduled
iterations still run. -/
theorem main_loop_catches_every_error_witness :
    (main_iter (Json.int 0) (HttpOutcome.requestError "boom")).sent.getLast?
      = some "Сбой в работе программы: Ошибка запроса: boom"
    ∧ (main_iter (Json.int 0) (HttpOutcome.requestError "boom")).slept = 600
    ∧ (main_loop (Json.int 0) [HttpOutcome.requestError "boom",
        HttpOutcome.response 200 resp1]).length = 2 := by
  have h := main_loop_catches_every_error (Json.int 0)
    (HttpOutcome.requestError "boom")
  refine ⟨?_, h.2.1, h.2.2.1 (Json.int 0)
    [HttpOutcome.requestError "boom", HttpOutcome.response 200 resp1]⟩
  exact (h.1 (PyError.endpointError "Ошибка запроса: boom") rfl).1

/-- C6: in an iteration whose validated list is non-empty and whose records
all parse, the loop hands `send_message` exactly the parsed messages, one
per record in list order; with an empty list nothing is sent and the debug
no-news note is logged. -/
theorem main_loop_one_notification_per_record (ts body : Json)
    (hs : List Json) (msgs : List String)
    (hcr : check_response body = Except.ok hs)
    (hall : hs.mapM parse_status = Except.ok msgs) :
    (hs ≠ [] →
       (main_iter ts (HttpOutcome.response 200 body)).sent = msgs
       ∧ msgs.length = hs.length)
    ∧ (hs = [] →
       (main_iter ts (HttpOutcome.response 200 body)).sent = []
       ∧ (⟨LogLevel.debug, "Отсутствуют новые статусы."⟩ : LogEntry) ∈
           (main_iter ts (HttpOutcome.response 200 body)).logs) := by
  obtain ⟨hnot, hlen⟩ := notify_all_of_mapM hs msgs hall
  constructor
  · intro hne
    have hemp : hs.isEmpty = false := by
      simpa [List.isEmpty_iff] using hne
    exact ⟨by simp [main_iter, get_api_answer, hcr, hemp, hnot], hlen⟩
  · intro he
    subst he
    constructor
    · simp [main_iter, get_api_answer, hcr]
    · simp [main_iter, get_api_answer, hcr]

/-- Exercises `main_loop_one_notification_per_record` on scenario 1's
response (one record, one exact message) and on an empty list. -/
theorem main_loop_one_notification_per_record_witness :
    (main_iter (Json.int 0) (HttpOutcome.response 200 resp1)).sent =
      ["Изменился статус проверки работы \"proj1\". Работа проверена: ревьюеру всё понравилось. Ура!"]
    ∧ (main_iter (Json.int 0) (HttpOutcome.response 200
        (Json.obj [("homeworks", Json.list []),
                   ("current_date", Json.int 7)]))).sent = [] := by
  constructor
  · exact ((main_loop_one_notification_per_record (Json.int 0) resp1 [rec1]
      ["Изменился статус проверки работы \"proj1\". Работа проверена: ревьюеру всё понравилось. Ура!"]
      rfl rfl).1 (List.cons_ne_nil rec1 [])).1
  · exact ((main_loop_one_notification_per_record (Json.int 0)
      (Json.obj [("homeworks", Json.list []), ("current_date", Json.int 7)])
      [] [] rfl rfl).2 rfl).1

/-- C7: an iteration that caught an exception leaves the cursor unchanged;
an iteration that completed sets it to `response.get('current_date',
timestamp)`, which is the `current_date` value when the key is present and
the previous cursor otherwise. -/
theorem main_loop_cursor_advance (ts : Json) (f : HttpOutcome) :
    ((main_iter ts f).caught.isSome → (main_iter ts f).timestamp = ts)
    ∧ (∀ body, f = HttpOutcome.response 200 body →
        (main_iter ts f).caught = Option.none →
        (main_iter ts f).timestamp = dictGet body "current_date" ts)
    ∧ (∀ kvs v, jlookup kvs "current_date" = some v →
        dictGet (Json.obj kvs) "current_date" ts = v)
    ∧ (∀ kvs, jlookup kvs "current_date" = Option.none →
        dictGet (Json.obj kvs) "current_date" ts = ts) := by
  refine ⟨?_, ?_, ?_, ?_⟩
  · intro hcaught
    rcases main_iter_cases ts f with ⟨msgs, e, hsh⟩ |
      ⟨body, hs, msgs, hf, hcr, hn, hsh⟩
    · rw [hsh]
    · rw [hsh] at hcaught
      simp at hcaught
  · intro body hf hnone
    rcases main_iter_cases ts f with ⟨msgs, e, hsh⟩ |
      ⟨body', hs, msgs, hf', hcr, hn, hsh⟩
    · rw [hsh] at hnone
      simp at hnone
    · rw [hf] at hf'
      have hb : body = body' := by
        injection hf'
      subst hb
      rw [hsh]
  · intro kvs v hv
    simp [dictGet, hv]
  · intro kvs hv
    simp [dictGet, hv]

/-- Exercises `main_loop_cursor_advance`: scenario 1 advances the cursor to
`1700000200`; a transport failure leaves it at its previous value. -/
theorem main_loop_cursor_advance_witness :
    (main_iter (Json.int 5) (HttpOutcome.response 200 resp1)).timestamp =
      Json.int 1700000200
    ∧ (main_iter (Json.int 5) (HttpOutcome.requestError "boom")).timestamp =
      Json.int 5 := by
  constructor
  · have h := (main_loop_cursor_advance (Json.int 5)
      (HttpOutcome.response 200 resp1)).2.1 resp1 rfl rfl
    rw [h]
    rfl
  · exact (main_loop_cursor_advance (Json.int 5)
      (HttpOutcome.requestError "boom")).1 rfl

/-- C10: every response accepted by `check_response` is a mapping holding a
`current_date` key, so the cursor-update `response.get('current_date',
timestamp)` of a completed iteration never falls back to its default: its
value does not depend on the previous cursor. -/
theorem check_response_requires_current_date (r : Json) (hw : List Json)
    (h : check_response r = Except.ok hw) :
    (∃ kvs v, r = Json.obj kvs ∧ jlookup kvs "current_date" = some v)
    ∧ (∀ d d', dictGet r "current_date" d = dictGet r "current_date" d')
    ∧ (∀ ts, (main_iter ts (HttpOutcome.response 200 r)).caught = Option.none →
        (main_iter ts (HttpOutcome.response 200 r)).timestamp =
          dictGet r "current_date" ts) := by
  have hobj : ∃ kvs v, r = Json.obj kvs ∧ jlookup kvs "current_date" = some v := by
    cases r with
    | obj kvs =>
        refine ⟨kvs, ?_⟩
        by_cases hc : hasKey kvs "current_date"
        · obtain ⟨v, hv⟩ := Option.isSome_iff_exists.1 hc
          exact ⟨v, rfl, hv⟩
        · by_cases hh : hasKey kvs "homeworks" <;>
            simp [check_response, hh, hc] at h
    | null => simp [check_response] at h
    | int n => simp [check_response] at h
    | str s => simp [check_response] at h
    | list l => simp [check_response] at h
  refine ⟨hobj, ?_, ?_⟩
  · intro d d'
    obtain ⟨kvs, v, hr, hv⟩ := hobj
    subst hr
    simp [dictGet, hv]
  · intro ts hnone
    rcases main_iter_cases ts (HttpOutcome.response 200 r) with
      ⟨msgs, e, hsh⟩ | ⟨body', hs, msgs, hf', hcr, hn, hsh⟩
    · rw [hsh] at hnone
      simp at hnone
    · have hb : r = body' := by
        injection hf'
      subst hb
      rw [hsh]

/-- Exercises `check_response_requires_current_date` on scenario 1's
response: the cursor update is independent of the default. -/
theorem check_response_requires_current_date_witness :
    dictGet resp1 "current_date" (Json.int 1) =
      dictGet resp1 "current_date" (Json.int 2)
    ∧ (main_iter (Json.int 9) (HttpOutcome.response 200 resp1)).timestamp =
      dictGet resp1 "current_date" (Json.int 9) :=
  ⟨(check_response_requires_current_date resp1 [rec1] rfl).2.1
      (Json.int 1) (Json.int 2),
   (check_response_requires_current_date resp1 [rec1] rfl).2.2
      (Json.int 9) rfl⟩

/-- C2 counterexample: a transport failure and a non-success HTTP status
raise the same exception kind — both are `EndpointErrorException` — so the
two failure modes are not distinguishable by error kind, contrary to the
claimed connectivity/endpoint distinction. -/
theorem get_api_answer_kinds_coincide :
    get_api_answer (Json.int 0) (HttpOutcome.requestError "timeout") =
      Except.error (PyError.endpointError "Ошибка запроса: timeout")
    ∧ get_api_answer (Json.int 0) (HttpOutcome.response 404 Json.null) =
      Except.error (PyError.endpointError
        "Эндпоинт https://practicum.yandex.ru/api/user_api/homework_statuses/ недоступен.Код ответа API: 404")
    ∧ errKind (PyError.endpointError "Ошибка запроса: timeout") =
      errKind (PyError.endpointError
        "Эндпоинт https://practicum.yandex.ru/api/user_api/homework_statuses/ недоступен.Код ответа API: 404") :=
  ⟨rfl, rfl, rfl⟩

/-- C2 amended: both failure modes raise `EndpointErrorException`, but with
distinguishable messages: a transport failure yields
`Ошибка запроса: <description>`, a non-success status yields a message
carrying the endpoint and the HTTP status code, and no message of the one
form equals a message of the other form. -/
theorem get_api_answer_error_messages (ts ts' : Json) (s : String)
    (code : Nat) (body : Json) (hcode : code ≠ 200) :
    get_api_answer ts (HttpOutcome.requestError s) =
      Except.error (PyError.endpointError ("Ошибка запроса: " ++ s))
    ∧ get_api_answer ts' (HttpOutcome.response code body) =
      Except.error (PyError.endpointError
        ("Эндпоинт " ++ ENDPOINT ++ " недоступен." ++ "Код ответа API: " ++
         toString code))
    ∧ ("Ошибка запроса: " ++ s) ≠
      ("Эндпоинт " ++ ENDPOINT ++ " недоступен." ++ "Код ответа API: " ++
       toString code) := by
  refine ⟨rfl, by simp [get_api_answer, hcode], ?_⟩
  intro h
  have hh : ("Ошибка запроса: " ++ s).data.head? =
      ("Эндпоинт " ++ ENDPOINT ++ " недоступен." ++ "Код ответа API: " ++
       toString code).data.head? := by rw [h]
  rw [strHead_append "Ошибка запроса: " s (Char.ofNat 1054) rfl] at hh
  rw [strHead_append
    ("Эндпоинт " ++ ENDPOINT ++ " недоступен." ++ "Код ответа API: ")
    (toString code) (Char.ofNat 1069) rfl] at hh
  simp at hh

/-- Exercises `get_api_answer_error_messages` at a timeout and a 404. -/
theorem get_api_answer_error_messages_witness :
    get_api_answer (Json.int 0) (HttpOutcome.requestError "t") =
      Except.error (PyError.endpointError "Ошибка запроса: t")
    ∧ get_api_answer (Json.int 0) (HttpOutcome.response 503 Json.null) =
      Except.error (PyError.endpointError
        "Эндпоинт https://practicum.yandex.ru/api/user_api/homework_statuses/ недоступен.Код ответа API: 503")
    ∧ "Ошибка запроса: t" ≠
      "Эндпоинт https://practicum.yandex.ru/api/user_api/homework_statuses/ недоступен.Код ответа API: 503" := by
  have h := get_api_answer_error_messages (Json.int 0) (Json.int 0) "t"
    503 Json.null (by decide)
  exact ⟨h.1, by rw [h.2.1]; rfl, fun heq => h.2.2 heq⟩



